import Mathlib

set_option linter.unusedVariables false

namespace IpVsTcp

/-! Shallow embedding of net/netfilter/ipvs/ip_vs_proto_tcp.c, the IPVS
FULLNAT TCP protocol module.  Machine integers are modelled as Nat with
explicit reduction modulo 2^32 (or 2^16) exactly where the C code relies
on unsigned wraparound.  Packet buffers are modelled as explicit field
records plus a list of option-area bytes; external collaborators
(allocator, SYN-proxy hooks, secure sequence generator, service/flow
lookups) enter as oracle parameters. -/

/-- Modulus of 32-bit unsigned arithmetic. -/
def u32 : Nat := 4294967296

/-- Wrapping addition on __u32 values. -/
def add32 (a b : Nat) : Nat := (a + b) % u32

/-- Wrapping subtraction on __u32 values. -/
def sub32 (a b : Nat) : Nat := (a % u32 + (u32 - b % u32)) % u32

/-- Linux before(a,b): the signed 32-bit difference (s32)(a-b) is negative,
i.e. the wrapped difference has its top bit set. -/
def before32 (a b : Nat) : Bool := decide (2147483648 ≤ sub32 a b)

/-- Linux after(a,b) = before(b,a). -/
def after32 (a b : Nat) : Bool := before32 b a

/-- TCP option opcodes and lengths used by the module (from linux/tcp.h and
net/ip_vs.h). -/
def TCPOPT_EOL : Nat := 0

def TCPOPT_NOP : Nat := 1

def TCPOPT_MSS : Nat := 2

def TCPOLEN_MSS : Nat := 4

def TCPOPT_SACK : Nat := 5

def TCPOLEN_SACK_BASE : Nat := 2

def TCPOLEN_SACK_PERBLOCK : Nat := 8

def TCPOPT_TIMESTAMP : Nat := 8

def TCPOLEN_TIMESTAMP : Nat := 10

/-- Opcode of the client-address (TOA) option inserted by FULLNAT. -/
def TCPOPT_ADDR : Nat := 254

/-- Byte length of the client-address (TOA) option: opcode, size, 16-bit
port, 32-bit IPv4 address. -/
def TCPOLEN_ADDR : Nat := 8

/-- Address families. -/
def AF_INET : Nat := 2

def AF_INET6 : Nat := 10

/-- IPVS TCP pseudo-states, numbered as the IP_VS_TCP_S_* enum. -/
def IP_VS_TCP_S_NONE : Nat := 0

def IP_VS_TCP_S_ESTABLISHED : Nat := 1

def IP_VS_TCP_S_SYN_SENT : Nat := 2

def IP_VS_TCP_S_SYN_RECV : Nat := 3

def IP_VS_TCP_S_FIN_WAIT : Nat := 4

def IP_VS_TCP_S_TIME_WAIT : Nat := 5

def IP_VS_TCP_S_CLOSE : Nat := 6

def IP_VS_TCP_S_CLOSE_WAIT : Nat := 7

def IP_VS_TCP_S_LAST_ACK : Nat := 8

def IP_VS_TCP_S_LISTEN : Nat := 9

def IP_VS_TCP_S_SYNACK : Nat := 10

def IP_VS_TCP_S_LAST : Nat := 11

/-- The fixed part of struct tcphdr, with multi-byte fields held as host
values (ntohl/htonl conversions are identities in this model). -/
structure Tcphdr where
  source : Nat
  dest : Nat
  seq : Nat
  ack_seq : Nat
  doff : Nat
  fin : Bool
  syn : Bool
  rst : Bool
  psh : Bool
  ack : Bool
  urg : Bool
  ece : Bool
  cwr : Bool
  window : Nat
  check : Nat
  urg_ptr : Nat
deriving Repr, DecidableEq

/-- A struct tcphdr after memset(th, 0, sizeof(struct tcphdr)). -/
def tcphdr0 : Tcphdr :=
  { source := 0, dest := 0, seq := 0, ack_seq := 0, doff := 0,
    fin := false, syn := false, rst := false, psh := false, ack := false,
    urg := false, ece := false, cwr := false,
    window := 0, check := 0, urg_ptr := 0 }

/-- struct ip_vs_seq: the FULLNAT sequence record of a flow. -/
structure IpVsSeq where
  init_seq : Nat
  delta : Nat
  fdata_seq : Nat
deriving Repr, DecidableEq

/-- Modelled from the spec: the SYN-proxy sequence record is opaque to the
core.  It is reduced to the second sequence delta it maintains, plus the
ack-storm decision its egress hook may take (the code outside src/ that
computes both is not part of this repository snapshot). -/
structure SynProxySeq where
  delta : Nat
  storm : Bool
deriving Repr, DecidableEq

/-- The flag bits of cp->flags that the module reads or writes. -/
structure ConnFlags where
  inactive : Bool
  nooutput : Bool
  fullnat : Bool
  masq : Bool
  cip_inserted : Bool
deriving Repr, DecidableEq

/-- The fields of struct ip_vs_conn that the module reads or writes.  The
attached destination is reduced to its presence and its two counters; the
SYN-proxy ack queue holds the TCP headers of the queued packets. -/
structure Conn where
  af : Nat
  caddr : Nat
  cport : Nat
  vaddr : Nat
  vport : Nat
  laddr : Nat
  lport : Nat
  daddr : Nat
  dport : Nat
  protocol : Nat
  state : Nat
  old_state : Nat
  timeout : Nat
  flags : ConnFlags
  fnat_seq : IpVsSeq
  syn_proxy_seq : SynProxySeq
  rs_end_seq : Nat
  rs_ack_seq : Nat
  ack_skb : List Tcphdr
  dest : Bool
  dest_activeconns : Int
  dest_inactconns : Int
deriving Repr, DecidableEq

/-- An all-zero flag set. -/
def flags0 : ConnFlags :=
  { inactive := false, nooutput := false, fullnat := false, masq := false,
    cip_inserted := false }

/-- A base connection record used to build concrete test flows. -/
def conn0 : Conn :=
  { af := AF_INET, caddr := 0, cport := 0, vaddr := 0, vport := 0,
    laddr := 0, lport := 0, daddr := 0, dport := 0, protocol := 6,
    state := IP_VS_TCP_S_NONE, old_state := IP_VS_TCP_S_NONE, timeout := 0,
    flags := flags0,
    fnat_seq := { init_seq := 0, delta := 0, fdata_seq := 0 },
    syn_proxy_seq := { delta := 0, storm := false },
    rs_end_seq := 0, rs_ack_seq := 0, ack_skb := [], dest := false,
    dest_activeconns := 0, dest_inactconns := 0 }

/-! ## State machine (set_tcp_state and its tables) -/

/-- Packet direction as seen by the framework. -/
inductive Dir where
  | input
  | output
  | input_only
deriving Repr, DecidableEq

/-- tcp_state_off[]: row-group offset per direction. -/
def tcp_state_off : Dir → Nat
  | Dir.input => 0
  | Dir.output => 4
  | Dir.input_only => 8

/-- tcp_state_idx(): flag-class row within a direction group; -1 when none
of RST/SYN/FIN/ACK is set. -/
def tcp_state_idx (th : Tcphdr) : Int :=
  if th.rst then 3
  else if th.syn then 0
  else if th.fin then 1
  else if th.ack then 2
  else -1

/-- tcp_states[]: the normal transition table, 12 rows (direction group x
flag class) of 11 next states indexed by the current state. -/
def tcp_states : List (List Nat) :=
  [ [3, 1, 1, 3, 3, 3, 3, 3, 3, 3, 3],
    [6, 7, 2, 5, 5, 5, 6, 7, 8, 9, 5],
    [6, 1, 2, 1, 4, 5, 6, 7, 6, 9, 1],
    [6, 6, 6, 3, 6, 6, 6, 6, 8, 9, 3],
    [2, 1, 2, 3, 2, 2, 2, 2, 2, 9, 3],
    [5, 4, 2, 5, 4, 5, 6, 5, 8, 9, 5],
    [1, 1, 2, 1, 4, 5, 6, 7, 8, 1, 1],
    [6, 6, 2, 6, 6, 5, 6, 6, 6, 6, 6],
    [3, 1, 1, 3, 3, 3, 3, 3, 3, 3, 3],
    [6, 4, 2, 5, 4, 5, 6, 7, 8, 9, 5],
    [6, 1, 2, 1, 4, 5, 6, 7, 6, 9, 1],
    [6, 6, 6, 3, 6, 6, 6, 6, 8, 9, 6] ]

/-- tcp_states_dos[]: the secure (anti-flood) transition table. -/
def tcp_states_dos : List (List Nat) :=
  [ [3, 1, 1, 3, 3, 3, 3, 3, 3, 3, 10],
    [6, 7, 2, 5, 5, 5, 6, 7, 8, 9, 10],
    [6, 1, 2, 3, 4, 5, 6, 7, 6, 9, 10],
    [6, 6, 6, 3, 6, 6, 6, 6, 8, 9, 6],
    [2, 1, 2, 10, 2, 2, 2, 2, 2, 9, 10],
    [5, 4, 2, 5, 4, 5, 6, 5, 8, 9, 5],
    [1, 1, 2, 1, 4, 5, 6, 7, 8, 1, 1],
    [6, 6, 2, 6, 6, 5, 6, 6, 6, 6, 6],
    [10, 1, 1, 3, 10, 10, 10, 10, 10, 10, 10],
    [6, 4, 2, 5, 4, 5, 6, 7, 8, 9, 5],
    [6, 1, 2, 1, 4, 5, 6, 7, 6, 9, 1],
    [6, 6, 6, 3, 6, 6, 6, 6, 8, 9, 6] ]

/-- Kernel tick rate used by the timeout vector. -/
def HZ : Nat := 1000

/-- sysctl_ip_vs_tcp_timeouts[]: per-state deadlines in ticks. -/
def sysctl_ip_vs_tcp_timeouts : List Nat :=
  [2 * HZ, 90 * HZ, 3 * HZ, 30 * HZ, 3 * HZ, 3 * HZ, 3 * HZ, 3 * HZ,
   3 * HZ, 2 * 60 * HZ, 30 * HZ, 2 * HZ]

/-- set_tcp_state(): advance the flow's pseudo-state from the active table
(tbl), the direction and the header's flag class, maintaining the
NOOUTPUT/INACTIVE flags, the destination counters, old_state and the
timeout.  The active table and the timeout vector are module globals in C
and are passed explicitly here. -/
def set_tcp_state (tbl : List (List Nat)) (timeout_table : List Nat)
    (cp : Conn) (direction : Dir) (th : Tcphdr) : Conn :=
  let s0 := tcp_state_off direction
  let fs :=
    if cp.flags.nooutput then
      if s0 = 4 then ({ cp.flags with nooutput := false }, s0)
      else (cp.flags, 8)
    else (cp.flags, s0)
  let flags1 := fs.1
  let state_off := fs.2
  let state_idx := tcp_state_idx th
  let new_state :=
    if state_idx < 0 then IP_VS_TCP_S_CLOSE
    else ((tbl.getD (state_off + state_idx.toNat) []).getD cp.state
      IP_VS_TCP_S_CLOSE)
  let cp1 := { cp with flags := flags1 }
  let cp2 :=
    if new_state ≠ cp.state ∧ cp.dest then
      if ¬flags1.inactive ∧ new_state ≠ IP_VS_TCP_S_ESTABLISHED then
        { cp1 with dest_activeconns := cp1.dest_activeconns - 1,
                   dest_inactconns := cp1.dest_inactconns + 1,
                   flags := { flags1 with inactive := true } }
      else if flags1.inactive ∧ new_state = IP_VS_TCP_S_ESTABLISHED then
        { cp1 with dest_activeconns := cp1.dest_activeconns + 1,
                   dest_inactconns := cp1.dest_inactconns - 1,
                   flags := { flags1 with inactive := false } }
      else cp1
    else cp1
  { cp2 with old_state := cp.state, state := new_state,
             timeout := timeout_table.getD new_state 0 }

/-- A header carrying both SYN and RST, used to exercise the flag-class
priority. -/
def thSynRst : Tcphdr := { tcphdr0 with syn := true, rst := true, doff := 5 }

/-- A header with none of SYN/FIN/ACK/RST set. -/
def thNoFlags : Tcphdr := { tcphdr0 with doff := 5 }

/-- A connection in ESTABLISHED state used by the C3 counterexample. -/
def connEst : Conn := { conn0 with state := IP_VS_TCP_S_ESTABLISHED }

/-- Claim C3 counterexample: a packet with both SYN and RST set is
classified RST (row 3), not SYN, so an ESTABLISHED flow on INPUT moves to
CLOSE (the RST cell) rather than staying ESTABLISHED (the SYN cell):
SYN does not have the highest priority. -/
theorem c3_syn_rst_classified_rst :
    tcp_state_idx thSynRst = 3 ∧
    (set_tcp_state tcp_states sysctl_ip_vs_tcp_timeouts connEst Dir.input
        thSynRst).state = IP_VS_TCP_S_CLOSE ∧
    (set_tcp_state tcp_states sysctl_ip_vs_tcp_timeouts connEst Dir.input
        thSynRst).state ≠ IP_VS_TCP_S_ESTABLISHED := by
  refine ⟨rfl, rfl, ?_⟩
  decide

/-- Claim C3 (amended): the flag class indexing the state tables is chosen
in the priority order RST > SYN > FIN > ACK (RST highest: a packet with
RST set is classified RST regardless of the other flags), and a packet
with none of these four flags transitions the flow to CLOSE. -/
theorem c3_flag_class_priority (th : Tcphdr) :
    (th.rst = true → tcp_state_idx th = 3) ∧
    (th.rst = false → th.syn = true → tcp_state_idx th = 0) ∧
    (th.rst = false → th.syn = false → th.fin = true →
      tcp_state_idx th = 1) ∧
    (th.rst = false → th.syn = false → th.fin = false → th.ack = true →
      tcp_state_idx th = 2) ∧
    (th.rst = false → th.syn = false → th.fin = false → th.ack = false →
      ∀ tbl timeout_table cp direction,
        (set_tcp_state tbl timeout_table cp direction th).state =
          IP_VS_TCP_S_CLOSE) := by
  refine ⟨?_, ?_, ?_, ?_, ?_⟩
  · intro h; simp [tcp_state_idx, h]
  · intro h1 h2; simp [tcp_state_idx, h1, h2]
  · intro h1 h2 h3; simp [tcp_state_idx, h1, h2, h3]
  · intro h1 h2 h3 h4; simp [tcp_state_idx, h1, h2, h3, h4]
  · intro h1 h2 h3 h4 tbl timeout_table cp direction
    simp [set_tcp_state, tcp_state_idx, h1, h2, h3, h4]

/-- Claim C3 witness: the amended theorem applied to a concrete flagless
header drives a concrete flow to CLOSE. -/
theorem c3_flag_class_priority_witness :
    (set_tcp_state tcp_states sysctl_ip_vs_tcp_timeouts conn0 Dir.input
        thNoFlags).state = IP_VS_TCP_S_CLOSE :=
  (c3_flag_class_priority thNoFlags).2.2.2.2 rfl rfl rfl rfl
    tcp_states sysctl_ip_vs_tcp_timeouts conn0 Dir.input

/-! ## Option-area bytes and the three option walkers

The option area is the byte region of length doff*4 - 20 following the
fixed header.  Reads outside the modelled region return 0 and writes
outside it are dropped; each walker additionally returns the list of byte
indices it read or wrote (instrumentation used to settle the safety
claim).  The walkers recurse on a fuel argument initialised to the
region length; since every loop iteration of the C code decreases the
remaining length by at least one, fuel never runs out before the loop
exits, so the fuel-0 case coincides with the length-0 exit. -/

def getByte (bs : List Nat) (i : Nat) : Nat := bs.getD i 0

def setByte (bs : List Nat) (i v : Nat) : List Nat := bs.set i v

def read16 (bs : List Nat) (i : Nat) : Nat :=
  getByte bs i * 256 + getByte bs (i + 1)

def write16 (bs : List Nat) (i v : Nat) : List Nat :=
  setByte (setByte bs i (v / 256 % 256)) (i + 1) (v % 256)

def read32 (bs : List Nat) (i : Nat) : Nat :=
  getByte bs i * 16777216 + getByte bs (i + 1) * 65536 +
    getByte bs (i + 2) * 256 + getByte bs (i + 3)

def write32 (bs : List Nat) (i v : Nat) : List Nat :=
  setByte (setByte (setByte (setByte bs i (v / 16777216 % 256))
    (i + 1) (v / 65536 % 256)) (i + 2) (v / 256 % 256)) (i + 3) (v % 256)

/-- Loop body of tcp_opt_adjust_mss(): walk the options, and on the first
MSS option subtract TCPOLEN_ADDR from its 16-bit value (__u16 wraparound). -/
def mssWalk : Nat → List Nat → Nat → Nat → List Nat × List Nat
  | 0, bs, _, _ => (bs, [])
  | fuel + 1, bs, pos, length =>
    if length = 0 then (bs, [])
    else
      let opcode := getByte bs pos
      if opcode = TCPOPT_EOL then (bs, [pos])
      else if opcode = TCPOPT_NOP then
        let r := mssWalk fuel bs (pos + 1) (length - 1)
        (r.1, pos :: r.2)
      else
        let opsize := getByte bs (pos + 1)
        if opsize < 2 then (bs, [pos, pos + 1])
        else if length < opsize then (bs, [pos, pos + 1])
        else if opcode = TCPOPT_MSS ∧ opsize = TCPOLEN_MSS then
          (write16 bs (pos + 2)
             ((read16 bs (pos + 2) + 65536 - TCPOLEN_ADDR) % 65536),
           [pos, pos + 1, pos + 2, pos + 3])
        else
          let r := mssWalk fuel bs (pos + opsize) (length - opsize)
          (r.1, pos :: (pos + 1) :: r.2)

/-- tcp_opt_adjust_mss(), gated by sysctl_ip_vs_mss_adjust_entry. -/
def tcp_opt_adjust_mss (sysctl_ip_vs_mss_adjust_entry : Nat) (tcph : Tcphdr)
    (opts : List Nat) : List Nat × List Nat :=
  if sysctl_ip_vs_mss_adjust_entry = 0 then (opts, [])
  else mssWalk (tcph.doff * 4 - 20) opts 0 (tcph.doff * 4 - 20)

/-- Overwrite n bytes starting at p with TCPOPT_NOP, as the timestamp
erase loop does. -/
def setNops (bs : List Nat) (p : Nat) : Nat → List Nat
  | 0 => bs
  | n + 1 => setByte (setNops bs p n) (p + n) TCPOPT_NOP

/-- Loop body of tcp_opt_remove_timestamp(): walk the options and replace
the first well-formed timestamp option (10 bytes, starting at its opcode)
with NOPs. -/
def tsWalk : Nat → List Nat → Nat → Nat → List Nat × List Nat
  | 0, bs, _, _ => (bs, [])
  | fuel + 1, bs, pos, length =>
    if length = 0 then (bs, [])
    else
      let opcode := getByte bs pos
      if opcode = TCPOPT_EOL then (bs, [pos])
      else if opcode = TCPOPT_NOP then
        let r := tsWalk fuel bs (pos + 1) (length - 1)
        (r.1, pos :: r.2)
      else
        let opsize := getByte bs (pos + 1)
        if opsize < 2 then (bs, [pos, pos + 1])
        else if length < opsize then (bs, [pos, pos + 1])
        else if opcode = TCPOPT_TIMESTAMP ∧ opsize = TCPOLEN_TIMESTAMP then
          (setNops bs pos TCPOLEN_TIMESTAMP,
           pos :: (pos + 1) :: (List.range TCPOLEN_TIMESTAMP).map (pos + ·))
        else
          let r := tsWalk fuel bs (pos + opsize) (length - opsize)
          (r.1, pos :: (pos + 1) :: r.2)

/-- tcp_opt_remove_timestamp(), gated by sysctl_ip_vs_timestamp_remove_entry. -/
def tcp_opt_remove_timestamp (sysctl_ip_vs_timestamp_remove_entry : Nat)
    (tcph : Tcphdr) (opts : List Nat) : List Nat × List Nat :=
  if sysctl_ip_vs_timestamp_remove_entry = 0 then (opts, [])
  else tsWalk (tcph.doff * 4 - 20) opts 0 (tcph.doff * 4 - 20)

/-- The SACK block rewrite loop of tcp_out_adjust_seq():
for (i = 0; i < bound; i += 4) the C code rewrites the 32-bit word at
*((__u32 *)ptr + i), i.e. at BYTE offset 4*i from the option data, with
its value minus delta.  The fuel argument (initialised to bound) only
bounds the recursion; i advances by 4 per step so fuel never runs out
while i < bound. -/
def sackBlockLoop : Nat → Nat → List Nat → Nat → Nat → Nat →
    List Nat × List Nat
  | 0, _, bs, _, _, _ => (bs, [])
  | fuel + 1, delta, bs, dataPos, i, bound =>
    if i < bound then
      let idx := dataPos + 4 * i
      let bs1 := write32 bs idx (sub32 (read32 bs idx) delta)
      let r := sackBlockLoop fuel delta bs1 dataPos (i + 4) bound
      (r.1, idx :: (idx + 1) :: (idx + 2) :: (idx + 3) :: r.2)
    else (bs, [])

/-- The option walk of tcp_out_adjust_seq(): find a well-formed SACK
option and run the block rewrite loop on it, then stop. -/
def sackWalk : Nat → Nat → List Nat → Nat → Nat → List Nat × List Nat
  | 0, _, bs, _, _ => (bs, [])
  | fuel + 1, delta, bs, pos, length =>
    if length = 0 then (bs, [])
    else
      let opcode := getByte bs pos
      if opcode = TCPOPT_EOL then (bs, [pos])
      else if opcode = TCPOPT_NOP then
        let r := sackWalk fuel delta bs (pos + 1) (length - 1)
        (r.1, pos :: r.2)
      else
        let opsize := getByte bs (pos + 1)
        if opsize < 2 then (bs, [pos, pos + 1])
        else if length < opsize then (bs, [pos, pos + 1])
        else if opcode = TCPOPT_SACK ∧
            TCPOLEN_SACK_BASE + TCPOLEN_SACK_PERBLOCK ≤ opsize ∧
            (opsize - TCPOLEN_SACK_BASE) % TCPOLEN_SACK_PERBLOCK = 0 then
          let r := sackBlockLoop (opsize - TCPOLEN_SACK_BASE) delta bs
            (pos + 2) 0 (opsize - TCPOLEN_SACK_BASE)
          (r.1, pos :: (pos + 1) :: r.2)
        else
          let r := sackWalk fuel delta bs (pos + opsize) (length - opsize)
          (r.1, pos :: (pos + 1) :: r.2)

/-- Modelled from the spec: ip_vs_synproxy_snat_handler, the SYN-proxy
egress hook, lives outside this source file.  Per the spec it either
signals an ack storm (return 0, here none, meaning drop) or translates
the sequence number across the proxied handshake by the SYN-proxy delta,
leaving ack_seq and the option bytes alone. -/
def ip_vs_synproxy_snat_handler (th : Tcphdr) (cp : Conn) : Option Tcphdr :=
  if cp.syn_proxy_seq.storm then none
  else some { th with seq := sub32 th.seq cp.syn_proxy_seq.delta }

/-- Modelled from the spec: ip_vs_synproxy_dnat_handler, the SYN-proxy
ingress hook, lives outside this source file.  Per the spec it always
succeeds in place and adjusts the acknowledgment number (and SACK edges)
across the proxied handshake, leaving seq alone. -/
def ip_vs_synproxy_dnat_handler (th : Tcphdr) (sp : SynProxySeq) : Tcphdr :=
  { th with ack_seq := add32 th.ack_seq sp.delta }

/-- tcp_out_adjust_seq(): on egress, first the SYN-proxy hook (none means
drop), then ack_seq -= fnat delta, then the SACK walk over the option
bytes.  Returns the new header, the new option bytes and the walker's
access log. -/
def tcp_out_adjust_seq (cp : Conn) (th : Tcphdr) (opts : List Nat) :
    Option (Tcphdr × List Nat × List Nat) :=
  match ip_vs_synproxy_snat_handler th cp with
  | none => none
  | some th1 =>
    let th2 := { th1 with ack_seq := sub32 th1.ack_seq cp.fnat_seq.delta }
    let r := sackWalk (th2.doff * 4 - 20) cp.fnat_seq.delta opts 0
      (th2.doff * 4 - 20)
    some (th2, r.1, r.2)

/-- tcp_in_adjust_seq(): on ingress, seq += fnat delta, then the SYN-proxy
ingress hook. -/
def tcp_in_adjust_seq (cp : Conn) (th : Tcphdr) : Tcphdr :=
  ip_vs_synproxy_dnat_handler
    { th with seq := add32 th.seq cp.fnat_seq.delta } cp.syn_proxy_seq

/-! ## Claim C1: SACK rewrite -/

/-- A FULLNAT flow with delta 1 and no SYN-proxy activity. -/
def cC1 : Conn :=
  { conn0 with flags := { flags0 with fullnat := true },
               fnat_seq := { init_seq := 500, delta := 1, fdata_seq := 0 } }

/-- An egress header whose option area is 12 bytes (doff = 8). -/
def thC1 : Tcphdr := { tcphdr0 with doff := 8, ack := true, ack_seq := 3000 }

/-- Option area: NOP, NOP, then one SACK option of 10 bytes whose two
edges are 1000 and 2000. -/
def optsC1 : List Nat := [1, 1, 5, 10, 0, 0, 3, 232, 0, 0, 7, 208]

/-- The option bytes produced by tcp_out_adjust_seq on the C1 input. -/
def outBytesC1 : List Nat :=
  ((tcp_out_adjust_seq cC1 thC1 optsC1).map (fun r => r.2.1)).getD []

/-- Claim C1: the SACK rewrite leaves the second 32-bit edge of the block
unchanged.  The C loop indexes *((__u32 *)ptr + i) with i stepping 0, 4,
8, ..., which scales the byte offset by 4: for a single 8-byte block it
rewrites the first edge (byte offset 0) and then bytes 16..19 past the
option data (outside the region) instead of the second edge at byte
offset 4.  The claim requires both edges to be decremented by delta. -/
theorem c1_sack_second_edge_not_adjusted :
    read32 outBytesC1 4 = sub32 (read32 optsC1 4) 1 ∧
    read32 outBytesC1 8 = read32 optsC1 8 ∧
    read32 outBytesC1 8 ≠ sub32 (read32 optsC1 8) 1 := by
  decide

/-! ## Claim C4: option-walker read bounds -/

/-- A header whose option area is 4 bytes (doff = 6). -/
def thC4 : Tcphdr := { tcphdr0 with doff := 6, syn := true }

/-- Option area ending in a TLV opcode: three NOPs then opcode 2. -/
def optsC4 : List Nat := [1, 1, 1, 2]

/-- Claim C4: the walkers read past the region.  On the 4-byte region
[1,1,1,2] both the MSS walker and the timestamp walker read byte index 4
(the size byte of the trailing TLV opcode, one past the region), and on
the 12-byte C1 region the SACK rewriter accesses byte index 20 (eight
bytes past the region), so none of the three walkers is bounded by the
region length. -/
theorem c4_walkers_read_past_region :
    (4 ∈ (tcp_opt_adjust_mss 1 thC4 optsC4).2 ∧ ¬ 4 < optsC4.length) ∧
    (4 ∈ (tcp_opt_remove_timestamp 1 thC4 optsC4).2 ∧ ¬ 4 < optsC4.length) ∧
    (20 ∈ (sackWalk 12 1 optsC1 0 12).2 ∧ ¬ 20 < optsC1.length) := by
  decide

/-! ## Claim C6: FULLNAT sequence linearity -/

/-- Claim C6: on ingress the output seq is the input seq plus the flow's
FULLNAT delta (mod 2^32); on egress, whenever the SYN-proxy hook does not
drop the segment, the output ack_seq is the input ack_seq minus the
flow's FULLNAT delta (mod 2^32). -/
theorem c6_seq_linearity :
    (∀ cp th, (tcp_in_adjust_seq cp th).seq = add32 th.seq cp.fnat_seq.delta) ∧
    (∀ cp th opts th2 bs acc,
      tcp_out_adjust_seq cp th opts = some (th2, bs, acc) →
      th2.ack_seq = sub32 th.ack_seq cp.fnat_seq.delta) := by
  constructor
  · intro cp th
    simp [tcp_in_adjust_seq, ip_vs_synproxy_dnat_handler]
  · intro cp th opts th2 bs acc h
    unfold tcp_out_adjust_seq ip_vs_synproxy_snat_handler at h
    by_cases hs : cp.syn_proxy_seq.storm
    · simp [hs] at h
    · simp [hs] at h
      obtain ⟨h1, h2⟩ := h
      subst h1
      rfl

/-- A FULLNAT flow with delta 5 used by the C6 witness. -/
def cC6 : Conn :=
  { conn0 with fnat_seq := { init_seq := 7, delta := 5, fdata_seq := 0 } }

/-- An input header used by the C6 witness. -/
def thC6 : Tcphdr := { tcphdr0 with seq := 1000, ack_seq := 2000, doff := 5 }

/-- The header produced by tcp_out_adjust_seq on the C6 witness input. -/
def thOutC6 : Tcphdr := { thC6 with seq := 1000, ack_seq := 1995 }

/-- Claim C6 witness: the linearity theorem applied at concrete inputs. -/
theorem c6_seq_linearity_witness :
    (tcp_in_adjust_seq cC6 thC6).seq = add32 thC6.seq cC6.fnat_seq.delta ∧
    thOutC6.ack_seq = sub32 thC6.ack_seq cC6.fnat_seq.delta :=
  ⟨c6_seq_linearity.1 cC6 thC6,
   c6_seq_linearity.2 cC6 thC6 [] thOutC6 [] [] (by decide)⟩

/-! ## Claim C7: sequence initialization and connection reuse -/

/-- The extended-statistics counters bumped by tcp_in_init_seq. -/
inductive Estat where
  | FULLNAT_CONN_REUSED
  | FULLNAT_CONN_REUSED_CLOSE
  | FULLNAT_CONN_REUSED_TIMEWAIT
  | FULLNAT_CONN_REUSED_FINWAIT
  | FULLNAT_CONN_REUSED_CLOSEWAIT
  | FULLNAT_CONN_REUSED_LASTACK
  | FULLNAT_CONN_REUSED_ESTAB
deriving Repr, DecidableEq

/-- The switch (cp->old_state) accounting of a detected reuse. -/
def reuse_stat_of_old_state (old_state : Nat) : List Estat :=
  if old_state = IP_VS_TCP_S_CLOSE then [Estat.FULLNAT_CONN_REUSED_CLOSE]
  else if old_state = IP_VS_TCP_S_TIME_WAIT then
    [Estat.FULLNAT_CONN_REUSED_TIMEWAIT]
  else if old_state = IP_VS_TCP_S_FIN_WAIT then
    [Estat.FULLNAT_CONN_REUSED_FINWAIT]
  else if old_state = IP_VS_TCP_S_CLOSE_WAIT then
    [Estat.FULLNAT_CONN_REUSED_CLOSEWAIT]
  else if old_state = IP_VS_TCP_S_LAST_ACK then
    [Estat.FULLNAT_CONN_REUSED_LASTACK]
  else if old_state = IP_VS_TCP_S_ESTABLISHED then
    [Estat.FULLNAT_CONN_REUSED_ESTAB]
  else []

/-- tcp_in_init_seq(): on an ingress pure SYN, set fdata_seq = seq+1 and
clear CIP_INSERTED; then, if init_seq is 0 or the connection-reuse test
fires, draw a fresh init_seq from the secure sequence generator (an
oracle parameter here) and recompute delta = init_seq - seq.  Returns the
updated flow and the emitted statistics events. -/
def tcp_in_init_seq (sysctl_ip_vs_conn_reused_entry : Nat) (secure_seq : Nat)
    (cp : Conn) (th : Tcphdr) : Conn × List Estat :=
  let seq : Nat := th.seq
  let flags1 : ConnFlags := { cp.flags with cip_inserted := false }
  let fseq1 : IpVsSeq := { cp.fnat_seq with fdata_seq := add32 seq 1 }
  if fseq1.init_seq = 0 ∨
      (sysctl_ip_vs_conn_reused_entry = 1 ∧ fseq1.init_seq ≠ 0 ∧
        (cp.state = IP_VS_TCP_S_SYN_RECV ∨ cp.state = IP_VS_TCP_S_SYN_SENT)) then
    let fseq2 : IpVsSeq := { fseq1 with init_seq := secure_seq,
                                        delta := sub32 secure_seq seq }
    let events : List Estat :=
      if sysctl_ip_vs_conn_reused_entry = 1 ∧ fseq1.init_seq ≠ 0 ∧
          (cp.state = IP_VS_TCP_S_SYN_RECV ∨ cp.state = IP_VS_TCP_S_SYN_SENT) then
        Estat.FULLNAT_CONN_REUSED :: reuse_stat_of_old_state cp.old_state
      else []
    ({ cp with flags := flags1, fnat_seq := fseq2 }, events)
  else ({ cp with flags := flags1, fnat_seq := fseq1 }, [])

/-- Claim C7: once init_seq is non-zero, ingress SYN processing leaves
init_seq and delta unchanged (and emits no reuse event) unless
conn_reused_entry is 1 and the current state is SYN_SENT or SYN_RECV; in
that case init_seq is regenerated from the secure generator, delta is
recomputed as init_seq - seq (mod 2^32), and the reuse is accounted under
the flow's old_state. -/
theorem c7_init_seq_frozen_unless_reuse (sysctl secure : Nat) (cp : Conn)
    (th : Tcphdr) (h : cp.fnat_seq.init_seq ≠ 0) :
    (¬(sysctl = 1 ∧
        (cp.state = IP_VS_TCP_S_SYN_RECV ∨ cp.state = IP_VS_TCP_S_SYN_SENT)) →
      (tcp_in_init_seq sysctl secure cp th).1.fnat_seq.init_seq =
          cp.fnat_seq.init_seq ∧
      (tcp_in_init_seq sysctl secure cp th).1.fnat_seq.delta =
          cp.fnat_seq.delta ∧
      (tcp_in_init_seq sysctl secure cp th).2 = []) ∧
    ((sysctl = 1 ∧
        (cp.state = IP_VS_TCP_S_SYN_RECV ∨ cp.state = IP_VS_TCP_S_SYN_SENT)) →
      (tcp_in_init_seq sysctl secure cp th).1.fnat_seq.init_seq = secure ∧
      (tcp_in_init_seq sysctl secure cp th).1.fnat_seq.delta =
          sub32 secure th.seq ∧
      (tcp_in_init_seq sysctl secure cp th).2 =
          Estat.FULLNAT_CONN_REUSED ::
            reuse_stat_of_old_state cp.old_state) := by
  constructor
  · intro hn
    simp only [tcp_in_init_seq]
    rw [if_neg (not_or.mpr ⟨h, fun hc => hn ⟨hc.1, hc.2.2⟩⟩)]
    exact ⟨rfl, rfl, rfl⟩
  · intro hy
    simp only [tcp_in_init_seq]
    rw [if_pos (Or.inr ⟨hy.1, h, hy.2⟩), if_pos ⟨hy.1, h, hy.2⟩]
    exact ⟨rfl, rfl, rfl⟩

/-- A reused flow (non-zero init_seq, SYN_SENT) for the C7 witness. -/
def cpC7 : Conn :=
  { conn0 with state := IP_VS_TCP_S_SYN_SENT,
               old_state := IP_VS_TCP_S_ESTABLISHED,
               fnat_seq := { init_seq := 42, delta := 2, fdata_seq := 41 } }

/-- An ingress SYN for the C7 witness. -/
def thC7 : Tcphdr := { tcphdr0 with syn := true, seq := 100, doff := 5 }

/-- Claim C7 witness: with reuse enabled and state SYN_SENT, the theorem
yields the regenerated record; with reuse disabled it yields the frozen
record. -/
theorem c7_init_seq_frozen_unless_reuse_witness :
    ((tcp_in_init_seq 1 900 cpC7 thC7).1.fnat_seq.init_seq = 900 ∧
     (tcp_in_init_seq 1 900 cpC7 thC7).1.fnat_seq.delta = sub32 900 100 ∧
     (tcp_in_init_seq 1 900 cpC7 thC7).2 =
       [Estat.FULLNAT_CONN_REUSED, Estat.FULLNAT_CONN_REUSED_ESTAB]) ∧
    ((tcp_in_init_seq 0 900 cpC7 thC7).1.fnat_seq.init_seq = 42 ∧
     (tcp_in_init_seq 0 900 cpC7 thC7).1.fnat_seq.delta = 2 ∧
     (tcp_in_init_seq 0 900 cpC7 thC7).2 = []) := by
  have h1 := (c7_init_seq_frozen_unless_reuse 1 900 cpC7 thC7 (by decide)).2
    (by exact ⟨rfl, Or.inr rfl⟩)
  have h2 := (c7_init_seq_frozen_unless_reuse 0 900 cpC7 thC7 (by decide)).1
    (by decide)
  refine ⟨⟨h1.1, by simpa using h1.2.1, by simpa [reuse_stat_of_old_state, cpC7] using h1.2.2⟩, ?_⟩
  simpa [cpC7] using h2

/-! ## Claim C2: one-shot insertion of the client-address option -/

/-- Environment outcomes consumed by tcp_opt_add_toa: whether the packet
fits below the destination MTU and whether skb_copy_expand succeeds. -/
structure ToaEnv where
  mtu_ok : Bool
  alloc_ok : Bool
deriving Repr, DecidableEq

/-- tcp_opt_add_toa(): decide whether the client-address option is
appended to this packet, and the flag effect on the flow.  The skb
surgery (copy, shift of the old options, doff/tot_len/checksum updates)
only concerns the packet bytes and is abstracted to the returned Bool;
the flow effect is exactly that of the C code: the only flag write is
setting CIP_INSERTED when seq is after fdata_seq, and a successful
append changes no flag. -/
def tcp_opt_add_toa (cp : Conn) (th : Tcphdr) (env : ToaEnv) : Conn × Bool :=
  if cp.af ≠ AF_INET then (cp, false)
  else if after32 th.seq cp.fnat_seq.fdata_seq then
    ({ cp with flags := { cp.flags with cip_inserted := true } }, false)
  else if ¬env.mtu_ok then (cp, false)
  else if ¬env.alloc_ok then (cp, false)
  else (cp, true)

/-- The flow-state portion of tcp_fnat_in_handler() relevant to the
client-address option: on a pure SYN run tcp_in_init_seq (which resets
fdata_seq and clears CIP_INSERTED), then gate tcp_opt_add_toa on
sysctl_ip_vs_toa_entry, on CIP_INSERTED being clear and on the packet
being neither RST nor FIN. -/
def tcp_fnat_in_toa_step (sysctl_conn_reused sysctl_toa secure_seq : Nat)
    (cp : Conn) (th : Tcphdr) (env : ToaEnv) : Conn × Bool :=
  let cp1 :=
    if th.syn ∧ ¬th.ack then
      (tcp_in_init_seq sysctl_conn_reused secure_seq cp th).1
    else cp
  if sysctl_toa = 1 ∧ ¬cp1.flags.cip_inserted ∧ ¬th.rst ∧ ¬th.fin then
    tcp_opt_add_toa cp1 th env
  else (cp1, false)

/-- Fold tcp_fnat_in_toa_step over a list of ingress packets, counting how
many of them received the client-address option. -/
def tcp_fnat_in_toa_run (sysctl_conn_reused sysctl_toa : Nat) (cp : Conn) :
    List (Tcphdr × ToaEnv × Nat) → Conn × Nat
  | [] => (cp, 0)
  | (th, env, secure) :: rest =>
    let r := tcp_fnat_in_toa_step sysctl_conn_reused sysctl_toa secure cp th env
    let rr := tcp_fnat_in_toa_run sysctl_conn_reused sysctl_toa r.1 rest
    (rr.1, (if r.2 then 1 else 0) + rr.2)

/-- An ingress pure SYN with seq 100. -/
def thSynC2 : Tcphdr := { tcphdr0 with syn := true, seq := 100, doff := 5 }

/-- The third-handshake ACK with seq 101. -/
def thAckC2 : Tcphdr :=
  { tcphdr0 with ack := true, seq := 101, ack_seq := 1, doff := 5 }

/-- An environment in which MTU and allocation both succeed. -/
def envOkC2 : ToaEnv := { mtu_ok := true, alloc_ok := true }

/-- The SYN followed by the handshake ACK of the same flow. -/
def pktsC2 : List (Tcphdr × ToaEnv × Nat) :=
  [(thSynC2, envOkC2, 900), (thAckC2, envOkC2, 0)]

/-- Claim C2 counterexample: on a fresh IPv4 FULLNAT flow with toa_entry
enabled, both the SYN (seq 100, fdata_seq becomes 101) and the handshake
ACK (seq 101) receive the client-address option - two appends on one
flow - and after the first successful append CIP_INSERTED is still
clear.  The claim requires at most one append and the flag to be set
immediately after a successful append. -/
theorem c2_toa_inserted_twice :
    (tcp_fnat_in_toa_run 0 1 conn0 pktsC2).2 = 2 ∧
    (tcp_fnat_in_toa_step 0 1 900 conn0 thSynC2 envOkC2).2 = true ∧
    (tcp_fnat_in_toa_step 0 1 900 conn0 thSynC2
        envOkC2).1.flags.cip_inserted = false := by
  decide

/-- Claim C2 (amended) helper: a single step on a flow whose CIP_INSERTED
flag is set, by a packet that is not a pure SYN, appends nothing and
keeps the flag set. -/
theorem toa_step_flag_set (sysctl_conn_reused sysctl_toa secure : Nat)
    (cp : Conn) (th : Tcphdr) (env : ToaEnv)
    (hflag : cp.flags.cip_inserted = true)
    (hnosyn : ¬(th.syn = true ∧ th.ack = false)) :
    (tcp_fnat_in_toa_step sysctl_conn_reused sysctl_toa secure cp th env).2 =
      false ∧
    (tcp_fnat_in_toa_step sysctl_conn_reused sysctl_toa secure cp th
        env).1.flags.cip_inserted = true := by
  unfold tcp_fnat_in_toa_step
  have hsyn : ¬(th.syn ∧ ¬th.ack) := by
    intro hc
    exact hnosyn ⟨hc.1, by simpa using hc.2⟩
  rw [if_neg hsyn]
  rw [if_neg]
  · exact ⟨rfl, hflag⟩
  · intro hc
    exact hc.2.1 hflag

/-- Claim C2 (amended): the append is not one-shot - it can hit several
packets (see the counterexample) and a successful append does not set
CIP_INSERTED - but once CIP_INSERTED is set it stays set and blocks all
further appends, as long as no ingress pure SYN (which re-initialises
the flow and clears the flag) is processed. -/
theorem c2_no_insert_once_flag_set (sysctl_conn_reused sysctl_toa : Nat)
    (cp : Conn) (pkts : List (Tcphdr × ToaEnv × Nat))
    (hflag : cp.flags.cip_inserted = true)
    (hnosyn : ∀ p ∈ pkts, ¬(p.1.syn = true ∧ p.1.ack = false)) :
    (tcp_fnat_in_toa_run sysctl_conn_reused sysctl_toa cp pkts).2 = 0 ∧
    (tcp_fnat_in_toa_run sysctl_conn_reused sysctl_toa cp
        pkts).1.flags.cip_inserted = true := by
  induction pkts generalizing cp with
  | nil => exact ⟨rfl, hflag⟩
  | cons p rest ih =>
    obtain ⟨th, env, secure⟩ := p
    have hstep := toa_step_flag_set sysctl_conn_reused sysctl_toa secure cp
      th env hflag (hnosyn _ (List.mem_cons_self _ _))
    have hrest := ih
      ((tcp_fnat_in_toa_step sysctl_conn_reused sysctl_toa secure cp th env).1)
      hstep.2 (fun q hq => hnosyn q (List.mem_cons_of_mem _ hq))
    simp only [tcp_fnat_in_toa_run]
    rw [hstep.1]
    simpa using hrest

/-- A flow whose CIP_INSERTED flag is set, for the C2 witness. -/
def cpC2w : Conn :=
  { conn0 with flags := { flags0 with cip_inserted := true },
               fnat_seq := { init_seq := 900, delta := 800,
                             fdata_seq := 101 } }

/-- Claim C2 witness: the amended theorem applied to a concrete flagged
flow and a concrete non-SYN packet list. -/
theorem c2_no_insert_once_flag_set_witness :
    (tcp_fnat_in_toa_run 0 1 cpC2w [(thAckC2, envOkC2, 0)]).2 = 0 ∧
    (tcp_fnat_in_toa_run 0 1 cpC2w
        [(thAckC2, envOkC2, 0)]).1.flags.cip_inserted = true :=
  c2_no_insert_once_flag_set 0 1 cpC2w [(thAckC2, envOkC2, 0)] (by decide)
    (by decide)

/-! ## Claim C8: reverse-path acknowledgment record -/

/-- tcp_save_out_seq(): on egress, when conn_expire_tcp_rst is enabled and
the segment is not an RST, refresh rs_end_seq/rs_ack_seq from the
segment, unless the new ack_seq is before the stored one and the stored
one is non-zero.  skb_len and ihl are the buffer length and the network
header length. -/
def tcp_save_out_seq (sysctl_ip_vs_conn_expire_tcp_rst : Bool) (cp : Conn)
    (th : Tcphdr) (skb_len ihl : Nat) : Conn :=
  if sysctl_ip_vs_conn_expire_tcp_rst ∧ ¬th.rst then
    if before32 th.ack_seq cp.rs_ack_seq ∧ cp.rs_ack_seq ≠ 0 then cp
    else
      { cp with
        rs_end_seq :=
          if th.syn ∧ th.ack then add32 th.seq 1
          else add32 th.seq (sub32 skb_len (ihl + th.doff * 4)),
        rs_ack_seq := th.ack_seq }
  else cp

/-- One admissible move of the stored rs_ack_seq: unchanged, or starting
from zero, or not moving backward in mod-2^32 order. -/
def RsStep (a b : Nat) : Prop := b = a ∨ a = 0 ∨ before32 b a = false

/-- The successive rs_ack_seq values along an egress packet trace. -/
def rsAckTrace (sysctl : Bool) (cp : Conn) :
    List (Tcphdr × Nat × Nat) → List Nat
  | [] => []
  | (th, skb_len, ihl) :: rest =>
    let cp1 := tcp_save_out_seq sysctl cp th skb_len ihl
    cp1.rs_ack_seq :: rsAckTrace sysctl cp1 rest

/-- Claim C8 helper: each call to tcp_save_out_seq makes an admissible
move of rs_ack_seq. -/
theorem save_out_seq_step (sysctl : Bool) (cp : Conn) (th : Tcphdr)
    (skb_len ihl : Nat) :
    RsStep cp.rs_ack_seq
      (tcp_save_out_seq sysctl cp th skb_len ihl).rs_ack_seq := by
  unfold tcp_save_out_seq RsStep
  split_ifs with h1 h2 h3
  · exact Or.inl rfl
  · rcases not_and_or.mp h2 with h | h
    · exact Or.inr (Or.inr (by simpa using h))
    · exact Or.inr (Or.inl (by simpa using h))
  · rcases not_and_or.mp h2 with h | h
    · exact Or.inr (Or.inr (by simpa using h))
    · exact Or.inr (Or.inl (by simpa using h))
  · exact Or.inl rfl

/-- Claim C8: rs_ack_seq is rewritten only when conn_expire_tcp_rst is
enabled, the segment is not an RST, and the new ack_seq does not regress
(it is not before the stored value, or the stored value is zero); and
along any egress packet trace every move of rs_ack_seq is admissible, so
the record never moves backward. -/
theorem c8_rs_ack_seq_monotone :
    (∀ sysctl cp th skb_len ihl,
      (tcp_save_out_seq sysctl cp th skb_len ihl).rs_ack_seq ≠
          cp.rs_ack_seq →
      sysctl = true ∧ th.rst = false ∧
      (tcp_save_out_seq sysctl cp th skb_len ihl).rs_ack_seq = th.ack_seq ∧
      (cp.rs_ack_seq = 0 ∨ before32 th.ack_seq cp.rs_ack_seq = false)) ∧
    (∀ sysctl cp pkts,
      List.Chain RsStep cp.rs_ack_seq (rsAckTrace sysctl cp pkts)) := by
  constructor
  · intro sysctl cp th skb_len ihl hne
    unfold tcp_save_out_seq at hne ⊢
    split_ifs at hne ⊢ with h1 h2 h3
    · exact absurd rfl hne
    · refine ⟨by simpa using h1.1, by simpa using h1.2, rfl, ?_⟩
      rcases not_and_or.mp h2 with h | h
      · exact Or.inr (by simpa using h)
      · exact Or.inl (by simpa using h)
    · refine ⟨by simpa using h1.1, by simpa using h1.2, rfl, ?_⟩
      rcases not_and_or.mp h2 with h | h
      · exact Or.inr (by simpa using h)
      · exact Or.inl (by simpa using h)
    · exact absurd rfl hne
  · intro sysctl cp pkts
    induction pkts generalizing cp with
    | nil => exact List.Chain.nil
    | cons p rest ih =>
      obtain ⟨th, skb_len, ihl⟩ := p
      exact List.Chain.cons (save_out_seq_step sysctl cp th skb_len ihl)
        (ih _)

/-- An egress ACK used by the C8 witness. -/
def thC8 : Tcphdr :=
  { tcphdr0 with ack := true, seq := 500, ack_seq := 77, doff := 5 }

/-- Claim C8 witness: the theorem applied at a concrete updating call and
a concrete two-packet trace. -/
theorem c8_rs_ack_seq_monotone_witness :
    (true = true ∧ thC8.rst = false ∧
      (tcp_save_out_seq true conn0 thC8 552 20).rs_ack_seq = thC8.ack_seq ∧
      (conn0.rs_ack_seq = 0 ∨
        before32 thC8.ack_seq conn0.rs_ack_seq = false)) ∧
    List.Chain RsStep conn0.rs_ack_seq
      (rsAckTrace true conn0 [(thC8, 552, 20), (thC8, 552, 20)]) :=
  ⟨c8_rs_ack_seq_monotone.1 true conn0 thC8 552 20 (by decide),
   c8_rs_ack_seq_monotone.2 true conn0 [(thC8, 552, 20), (thC8, 552, 20)]⟩

/-! ## Claim C9: the scheduling gate -/

/-- Netfilter verdicts. -/
def NF_DROP : Nat := 0

def NF_ACCEPT : Nat := 1

/-- Oracle outcomes of the external collaborators of tcp_conn_schedule():
header extraction (th_ok is false when skb_header_pointer returns NULL),
the SYN-proxy ACK-receive hook, service lookup, admission control, the
scheduler and the stray-VIP shield. -/
structure SchedEnv where
  th_ok : Bool
  th : Tcphdr
  synproxy_claims : Bool
  synproxy_cp : Option Conn
  synproxy_verdict : Nat
  svc_match : Bool
  todrop : Bool
  sched_result : Option Conn
  leave_verdict : Nat
  drop_entry : Bool
  vip_match : Bool

/-- Result of tcp_conn_schedule(): the int return value, the verdict (when
written) and the connection written through cpp. -/
structure SchedResult where
  ret : Nat
  verdict : Option Nat
  cpp : Option Conn
deriving DecidableEq

/-- tcp_conn_schedule(): drop short headers; give the SYN-proxy hook first
refusal; schedule a new flow only for a pure SYN with a matching virtual
service (dropping under overload, deferring to ip_vs_leave when the
scheduler fails); otherwise apply the stray-VIP shield or pass. -/
def tcp_conn_schedule (env : SchedEnv) : SchedResult :=
  if ¬env.th_ok then { ret := 0, verdict := some NF_DROP, cpp := none }
  else if env.synproxy_claims then
    { ret := 0, verdict := some env.synproxy_verdict,
      cpp := env.synproxy_cp }
  else if env.th.syn ∧ ¬env.th.ack ∧ ¬env.th.fin ∧ ¬env.th.rst ∧
      env.svc_match then
    if env.todrop then { ret := 0, verdict := some NF_DROP, cpp := none }
    else
      match env.sched_result with
      | none => { ret := 0, verdict := some env.leave_verdict, cpp := none }
      | some c => { ret := 1, verdict := none, cpp := some c }
  else if env.drop_entry ∧ env.vip_match then
    { ret := 0, verdict := some NF_DROP, cpp := none }
  else { ret := 1, verdict := none, cpp := none }

/-- Claim C9: when the SYN-proxy hook does not claim the packet, a flow is
created (cpp non-null) only if the header parsed, the segment is a pure
SYN (SYN set, ACK/FIN/RST clear), a virtual service matched, admission
control passed, and then the created flow is the scheduler's result. -/
theorem c9_pure_syn_gate (env : SchedEnv)
    (hclaim : env.synproxy_claims = false) :
    (tcp_conn_schedule env).cpp ≠ none →
    env.th_ok = true ∧ env.th.syn = true ∧ env.th.ack = false ∧
      env.th.fin = false ∧ env.th.rst = false ∧ env.svc_match = true ∧
      env.todrop = false ∧ (tcp_conn_schedule env).cpp = env.sched_result := by
  intro hcpp
  by_cases h1 : env.th_ok
  case neg =>
    exfalso
    apply hcpp
    simp [tcp_conn_schedule, h1]
  case pos =>
  by_cases h3 : env.th.syn ∧ ¬env.th.ack ∧ ¬env.th.fin ∧ ¬env.th.rst ∧
      env.svc_match
  case neg =>
    exfalso
    apply hcpp
    simp only [Bool.not_eq_true] at h3
    by_cases h5 : env.drop_entry ∧ env.vip_match <;>
      simp [tcp_conn_schedule, h1, hclaim, h3, h5]
  case pos =>
  by_cases h4 : env.todrop
  case pos =>
    exfalso
    apply hcpp
    simp [tcp_conn_schedule, h1, hclaim, h3, h4]
  case neg =>
    cases hs : env.sched_result with
    | none =>
      exfalso
      apply hcpp
      simp [tcp_conn_schedule, h1, hclaim, h3, h4, hs]
    | some c =>
      refine ⟨by simpa using h1, by simpa using h3.1, by simpa using h3.2.1,
        by simpa using h3.2.2.1, by simpa using h3.2.2.2.1,
        by simpa using h3.2.2.2.2, by simpa using h4, ?_⟩
      simp [tcp_conn_schedule, h1, hclaim, h3, h4, hs]

/-- A scheduling environment carrying a concrete pure SYN, for the C9
witness. -/
def envC9 : SchedEnv :=
  { th_ok := true, th := { tcphdr0 with syn := true, doff := 5 },
    synproxy_claims := false, synproxy_cp := none, synproxy_verdict := 0,
    svc_match := true, todrop := false, sched_result := some conn0,
    leave_verdict := 0, drop_entry := false, vip_match := false }

/-- Claim C9 witness: the gate theorem applied to a concrete environment
that creates a flow. -/
theorem c9_pure_syn_gate_witness :
    envC9.th_ok = true ∧ envC9.th.syn = true ∧ envC9.th.ack = false ∧
      envC9.th.fin = false ∧ envC9.th.rst = false ∧
      envC9.svc_match = true ∧ envC9.todrop = false ∧
      (tcp_conn_schedule envC9).cpp = envC9.sched_result :=
  c9_pure_syn_gate envC9 rfl (by decide)

/-! ## Claim C10: application helper registration -/

/-- tcp_app_hashkey(): bucket of a 16-bit port. -/
def tcp_app_hashkey (port : Nat) : Nat := ((port >>> 4) ^^^ port) &&& 15

/-- The helper hash table (bucket index to list of registered ports, most
recent first) together with the registered-app count. -/
structure TcpAppTab where
  tab : Nat → List Nat
  appcnt : Int

/-- tcp_register_app(): refuse (-EEXIST) if some helper in the port's
bucket already has that port, otherwise prepend it (list_add) and bump
the count. -/
def tcp_register_app (st : TcpAppTab) (port : Nat) : Int × TcpAppTab :=
  let hash := tcp_app_hashkey port
  if port ∈ st.tab hash then (-17, st)
  else
    (0, { tab := fun h => if h = hash then port :: st.tab h else st.tab h,
          appcnt := st.appcnt + 1 })

/-- Table sanity: every bucket holds each port at most once, and only
ports that hash to it. -/
def AtMostOnePerPort (st : TcpAppTab) : Prop :=
  ∀ h p, (st.tab h).count p ≤ 1 ∧ (p ∈ st.tab h → tcp_app_hashkey p = h)

/-- Claim C10: registering a port that already has a helper returns
-EEXIST and leaves the table and the count unchanged, and registration
preserves the at-most-one-helper-per-port invariant. -/
theorem c10_register_app_unique (st : TcpAppTab) (port : Nat)
    (hwf : AtMostOnePerPort st) :
    ((∃ h, port ∈ st.tab h) →
      tcp_register_app st port = (-17, st)) ∧
    AtMostOnePerPort (tcp_register_app st port).2 := by
  constructor
  · rintro ⟨h, hmem⟩
    have hh : h = tcp_app_hashkey port := ((hwf h port).2 hmem).symm
    subst hh
    unfold tcp_register_app
    rw [if_pos hmem]
  · unfold tcp_register_app
    by_cases hmem : port ∈ st.tab (tcp_app_hashkey port)
    · rw [if_pos hmem]
      exact hwf
    · rw [if_neg hmem]
      intro h p
      constructor
      · show (if h = tcp_app_hashkey port then port :: st.tab h
            else st.tab h).count p ≤ 1
        by_cases hh : h = tcp_app_hashkey port
        · rw [if_pos hh, List.count_cons]
          by_cases hp : p = port
          · subst hp
            have h0 : (st.tab h).count p = 0 := by
              rw [hh]
              exact List.count_eq_zero.mpr hmem
            simp [h0]
          · have hp2 : ¬port = p := fun hc => hp hc.symm
            simpa [hp, hp2] using (hwf h p).1
        · rw [if_neg hh]
          exact (hwf h p).1
      · show p ∈ (if h = tcp_app_hashkey port then port :: st.tab h
            else st.tab h) → tcp_app_hashkey p = h
        by_cases hh : h = tcp_app_hashkey port
        · rw [if_pos hh]
          intro hp
          rcases List.mem_cons.mp hp with rfl | hp2
          · exact hh.symm
          · exact (hwf h p).2 hp2
        · rw [if_neg hh]
          exact (hwf h p).2

/-- The empty helper table. -/
def stEmptyC10 : TcpAppTab := { tab := fun _ => [], appcnt := 0 }

/-- The empty table is trivially well formed. -/
theorem stEmptyC10_wf : AtMostOnePerPort stEmptyC10 := by
  intro h p
  constructor
  · simp [stEmptyC10]
  · simp [stEmptyC10]

/-- The table after a first successful registration of port 80 (bucket 5). -/
def stC10 : TcpAppTab := (tcp_register_app stEmptyC10 80).2

/-- Claim C10 witness: the theorem applied to the concrete one-entry
table; re-registering port 80 is refused and leaves the table intact. -/
theorem c10_register_app_unique_witness :
    tcp_register_app stC10 80 = (-17, stC10) :=
  (c10_register_app_unique stC10 80
    ((c10_register_app_unique stEmptyC10 80 stEmptyC10_wf).2)).1
    ⟨5, by decide⟩

/-! ## Claim C5: RST synthesis on flow expiry

Internet one's-complement checksums are modelled by summing 16-bit words
over Nat and folding the carries at the end; csum_tcpudp_magic and
ip_send_check/ip_fast_csum mirror the kernel primitives on that model.
The fold recurses on a fuel argument initialised to the sum itself; one
fold step strictly decreases any sum above 0xffff, so the fuel never
runs out. -/

/-- One's-complement fold of an unbounded sum down to 16 bits. -/
def csum_fold_aux : Nat → Nat → Nat
  | 0, s => s
  | fuel + 1, s =>
    if s ≤ 65535 then s else csum_fold_aux fuel (s % 65536 + s / 65536)

/-- Fold a checksum accumulator to its 16-bit one's-complement value. -/
def csum_fold16 (s : Nat) : Nat := csum_fold_aux s s

/-- The fold stays within 16 bits, preserves the value modulo 65535, never
exceeds its input and maps nothing but 0 to 0. -/
theorem csum_fold_aux_spec (fuel : Nat) :
    ∀ s, s ≤ fuel →
      csum_fold_aux fuel s ≤ 65535 ∧
      csum_fold_aux fuel s % 65535 = s % 65535 ∧
      csum_fold_aux fuel s ≤ s ∧
      (s ≠ 0 → csum_fold_aux fuel s ≠ 0) := by
  induction fuel with
  | zero =>
    intro s hs
    have h0 : s = 0 := Nat.le_zero.mp hs
    subst h0
    simp [csum_fold_aux]
  | succ n ih =>
    intro s hs
    by_cases hle : s ≤ 65535
    · simp [csum_fold_aux, hle]
    · have hbig : 65535 < s := Nat.not_le.mp hle
      have hdiv : 1 ≤ s / 65536 := by omega
      have hstep : s % 65536 + s / 65536 < s := by omega
      have hs' : s % 65536 + s / 65536 ≤ n := by omega
      obtain ⟨p1, p2, p3, p4⟩ := ih _ hs'
      have hred : csum_fold_aux (n + 1) s =
          csum_fold_aux n (s % 65536 + s / 65536) := by
        simp [csum_fold_aux, hle]
      refine ⟨by rw [hred]; exact p1, ?_, ?_, ?_⟩
      · rw [hred, p2]
        omega
      · rw [hred]
        omega
      · intro _
        rw [hred]
        exact p4 (by omega)

/-- csum_fold16 stays within 16 bits. -/
theorem csum_fold16_le (s : Nat) : csum_fold16 s ≤ 65535 :=
  (csum_fold_aux_spec s s le_rfl).1

/-- csum_fold16 preserves the value modulo 65535. -/
theorem csum_fold16_mod (s : Nat) : csum_fold16 s % 65535 = s % 65535 :=
  (csum_fold_aux_spec s s le_rfl).2.1

/-- csum_fold16 never exceeds its input. -/
theorem csum_fold16_le_self (s : Nat) : csum_fold16 s ≤ s :=
  (csum_fold_aux_spec s s le_rfl).2.2.1

/-- csum_fold16 maps nothing but 0 to 0. -/
theorem csum_fold16_ne_zero (s : Nat) (h : s ≠ 0) : csum_fold16 s ≠ 0 :=
  (csum_fold_aux_spec s s le_rfl).2.2.2 h

/-- Filling in the one's complement of a folded sum makes the total fold
to 0xffff: the checksum set by the senders verifies at the receiver. -/
theorem csum_complement_valid (s : Nat) :
    csum_fold16 (s + (65535 - csum_fold16 s)) = 65535 := by
  have hf1 := csum_fold16_le s
  have hf2 := csum_fold16_mod s
  have hf3 := csum_fold16_le_self s
  have htot : s + (65535 - csum_fold16 s) ≠ 0 := by omega
  have h1 := csum_fold16_le (s + (65535 - csum_fold16 s))
  have h2 := csum_fold16_mod (s + (65535 - csum_fold16 s))
  have h3 := csum_fold16_ne_zero _ htot
  omega

/-- The IPv4 header fields written by the RST builders (id and tos are
left uninitialised by the C code and enter as arbitrary values). -/
structure IpHdr where
  version : Nat
  ihl : Nat
  tos : Nat
  tot_len : Nat
  id : Nat
  frag_off : Nat
  ttl : Nat
  protocol : Nat
  check : Nat
  saddr : Nat
  daddr : Nat
deriving Repr, DecidableEq

/-- The 16-bit-word sum of an IPv4 header (ihl = 5, no options). -/
def ipWordSum (iph : IpHdr) : Nat :=
  (iph.version * 4096 + iph.ihl * 256 + iph.tos) + iph.tot_len + iph.id +
    iph.frag_off + (iph.ttl * 256 + iph.protocol) + iph.check +
    iph.saddr / 65536 + iph.saddr % 65536 + iph.daddr / 65536 +
    iph.daddr % 65536

/-- ip_send_check(): store the one's complement of the header sum. -/
def ip_send_check (iph : IpHdr) : IpHdr :=
  { iph with check := 65535 - csum_fold16 (ipWordSum { iph with check := 0 }) }

/-- ip_fast_csum() as used for verification: 0 means the header checks. -/
def ip_fast_csum (iph : IpHdr) : Nat := 65535 - csum_fold16 (ipWordSum iph)

/-- The value a flag contributes to the flags word. -/
def flagBit (b : Bool) (v : Nat) : Nat := if b then v else 0

/-- The 16-bit-word sum of a 20-byte TCP header. -/
def tcpWordSum (th : Tcphdr) : Nat :=
  th.source + th.dest + th.seq / 65536 + th.seq % 65536 +
    th.ack_seq / 65536 + th.ack_seq % 65536 +
    (th.doff * 4096 + flagBit th.cwr 128 + flagBit th.ece 64 +
      flagBit th.urg 32 + flagBit th.ack 16 + flagBit th.psh 8 +
      flagBit th.rst 4 + flagBit th.syn 2 + flagBit th.fin 1) +
    th.window + th.check + th.urg_ptr

/-- The IPv4 TCP pseudo-header sum. -/
def pseudoSum (saddr daddr len proto : Nat) : Nat :=
  saddr / 65536 + saddr % 65536 + daddr / 65536 + daddr % 65536 +
    proto + len

/-- csum_tcpudp_magic(): one's complement of segment sum plus
pseudo-header; a result of 0 on a full sum means the segment checks. -/
def csum_tcpudp_magic (saddr daddr len proto csum : Nat) : Nat :=
  65535 - csum_fold16 (csum + pseudoSum saddr daddr len proto)

def IP_DF : Nat := 16384

def IPDEFTTL : Nat := 64

def IPPROTO_TCP : Nat := 6

/-- A synthesised RST packet: IPv4 header plus TCP header, no payload. -/
structure RstPacket where
  iph : IpHdr
  th : Tcphdr
deriving Repr, DecidableEq

/-- The packet-building tail shared verbatim by tcp_send_rst_in() and
tcp_send_rst_out() (v4 branch): a zeroed TCP header with the given
ports and sequence, ack_seq 0, doff 5, rst set; an IPv4 header of total
length 40 with DF, default TTL and ip_send_check; and a full TCP
checksum over the pseudo-header. -/
def build_rst (src dst seqv saddr daddr tos id : Nat) : RstPacket :=
  let th1 : Tcphdr :=
    { tcphdr0 with source := src, dest := dst, seq := seqv, ack_seq := 0,
                   doff := 5, rst := true }
  let iph1 : IpHdr := ip_send_check
    { version := 4, ihl := 5, tos := tos, tot_len := 40, id := id,
      frag_off := IP_DF, ttl := IPDEFTTL, protocol := IPPROTO_TCP,
      check := 0, saddr := saddr, daddr := daddr }
  { iph := iph1,
    th := { th1 with check := (csum_tcpudp_magic iph1.saddr iph1.daddr 20
              IPPROTO_TCP (tcpWordSum th1)) } }

/-- tcp_send_rst_in(): the RST towards the real server.  None when the
allocation fails or when the state is neither SYN_SENT-with-queued-ACK
nor ESTABLISHED.  The seq is the queued ACK's seq, or the recorded
rs_ack_seq (minus the FULLNAT delta on a FULLNAT flow). -/
def tcp_send_rst_in (cp : Conn) (alloc_ok : Bool) (tos id : Nat) :
    Option RstPacket :=
  if ¬alloc_ok then none
  else if cp.state = IP_VS_TCP_S_SYN_SENT ∧ cp.ack_skb ≠ [] then
    some (build_rst cp.cport cp.vport (cp.ack_skb.headD tcphdr0).seq
      cp.caddr cp.vaddr tos id)
  else if cp.state = IP_VS_TCP_S_ESTABLISHED then
    some (build_rst cp.cport cp.vport
      (if cp.flags.fullnat then sub32 cp.rs_ack_seq cp.fnat_seq.delta
       else cp.rs_ack_seq)
      cp.caddr cp.vaddr tos id)
  else none

/-- tcp_send_rst_out(): the RST towards the client.  The seq is the
queued ACK's ack_seq minus the SYN-proxy delta, or the recorded
rs_end_seq. -/
def tcp_send_rst_out (cp : Conn) (alloc_ok : Bool) (tos id : Nat) :
    Option RstPacket :=
  if ¬alloc_ok then none
  else if cp.state = IP_VS_TCP_S_SYN_SENT ∧ cp.ack_skb ≠ [] then
    some (build_rst cp.dport
      (if cp.flags.fullnat then cp.lport else cp.cport)
      (sub32 (cp.ack_skb.headD tcphdr0).ack_seq cp.syn_proxy_seq.delta)
      cp.daddr cp.laddr tos id)
  else if cp.state = IP_VS_TCP_S_ESTABLISHED then
    some (build_rst cp.dport
      (if cp.flags.fullnat then cp.lport else cp.cport)
      cp.rs_end_seq cp.daddr cp.laddr tos id)
  else none

/-- tcp_conn_expire_handler(): when conn_expire_tcp_rst is set and the
flow is FULLNAT or NAT, send the RST to the real server and the RST to
the client; the emitted packets in order. -/
def tcp_conn_expire_handler (sysctl_ip_vs_conn_expire_tcp_rst : Bool)
    (cp : Conn) (allocIn allocOut : Bool)
    (tosIn idIn tosOut idOut : Nat) : List RstPacket :=
  if sysctl_ip_vs_conn_expire_tcp_rst ∧
      (cp.flags.fullnat ∨ cp.flags.masq) then
    (tcp_send_rst_in cp allocIn tosIn idIn).toList ++
      (tcp_send_rst_out cp allocOut tosOut idOut).toList
  else []

/-- Adding a (check = 0) header's checksum field changes its word sum
additively. -/
theorem tcpWordSum_set_check (th : Tcphdr) (c : Nat) (hc : th.check = 0) :
    tcpWordSum { th with check := c } = tcpWordSum th + c := by
  simp [tcpWordSum, hc]
  ring

/-- A TCP checksum computed by csum_tcpudp_magic over a zero-check header
verifies once stored. -/
theorem magic_fill (saddr daddr len proto : Nat) (th : Tcphdr)
    (hc : th.check = 0) :
    csum_tcpudp_magic saddr daddr len proto
      (tcpWordSum { th with check := (csum_tcpudp_magic saddr daddr len
        proto (tcpWordSum th)) }) = 0 := by
  rw [tcpWordSum_set_check th _ hc]
  unfold csum_tcpudp_magic
  have h : tcpWordSum th +
      (65535 - csum_fold16 (tcpWordSum th + pseudoSum saddr daddr len proto)) +
      pseudoSum saddr daddr len proto =
      (tcpWordSum th + pseudoSum saddr daddr len proto) +
        (65535 - csum_fold16
          (tcpWordSum th + pseudoSum saddr daddr len proto)) := by
    ring
  rw [h, csum_complement_valid]

/-- A header checksum written by ip_send_check verifies. -/
theorem ip_send_check_valid (iph : IpHdr) :
    ip_fast_csum (ip_send_check iph) = 0 := by
  unfold ip_send_check ip_fast_csum
  have hset : ipWordSum { iph with check := (65535 - csum_fold16
        (ipWordSum { iph with check := 0 })) } =
      ipWordSum { iph with check := 0 } +
        (65535 - csum_fold16 (ipWordSum { iph with check := 0 })) := by
    simp [ipWordSum]
    ring
  rw [hset, csum_complement_valid]

/-- Every packet built by the shared RST tail has rst set, ack_seq 0,
doff 5 and valid IP and TCP checksums. -/
theorem build_rst_props (src dst seqv saddr daddr tos id : Nat) :
    (build_rst src dst seqv saddr daddr tos id).th.rst = true ∧
    (build_rst src dst seqv saddr daddr tos id).th.ack_seq = 0 ∧
    (build_rst src dst seqv saddr daddr tos id).th.doff = 5 ∧
    ip_fast_csum (build_rst src dst seqv saddr daddr tos id).iph = 0 ∧
    csum_tcpudp_magic (build_rst src dst seqv saddr daddr tos id).iph.saddr
      (build_rst src dst seqv saddr daddr tos id).iph.daddr 20 IPPROTO_TCP
      (tcpWordSum (build_rst src dst seqv saddr daddr tos id).th) = 0 := by
  refine ⟨rfl, rfl, rfl, ?_, ?_⟩
  · exact ip_send_check_valid _
  · exact magic_fill saddr daddr 20 IPPROTO_TCP
      { tcphdr0 with source := src, dest := dst, seq := seqv, ack_seq := 0,
                     doff := 5, rst := true } rfl

/-- Claim C5 helper: with a successful allocation, tcp_send_rst_in emits
exactly when the state is SYN_SENT with a queued ACK or ESTABLISHED. -/
theorem rst_in_none_iff (cp : Conn) (tos id : Nat) :
    tcp_send_rst_in cp true tos id = none ↔
      ¬((cp.state = IP_VS_TCP_S_SYN_SENT ∧ cp.ack_skb ≠ []) ∨
        cp.state = IP_VS_TCP_S_ESTABLISHED) := by
  unfold tcp_send_rst_in
  rw [if_neg (by simp)]
  split_ifs with h1 h2 _h3 <;> simp_all

/-- Claim C5 helper: with a successful allocation, tcp_send_rst_out emits
exactly when the state is SYN_SENT with a queued ACK or ESTABLISHED. -/
theorem rst_out_none_iff (cp : Conn) (tos id : Nat) :
    tcp_send_rst_out cp true tos id = none ↔
      ¬((cp.state = IP_VS_TCP_S_SYN_SENT ∧ cp.ack_skb ≠ []) ∨
        cp.state = IP_VS_TCP_S_ESTABLISHED) := by
  unfold tcp_send_rst_out
  rw [if_neg (by simp)]
  split_ifs with h1 _h2 h3 _h4 _h5 <;> simp_all

/-- Claim C5 helper: every packet emitted by either RST builder is a
build_rst packet. -/
theorem rst_in_mem_build (cp : Conn) (tos id : Nat) (p : RstPacket)
    (h : tcp_send_rst_in cp true tos id = some p) :
    ∃ src dst seqv saddr daddr tos2 id2,
      p = build_rst src dst seqv saddr daddr tos2 id2 := by
  unfold tcp_send_rst_in at h
  rw [if_neg (by simp)] at h
  split_ifs at h <;>
    exact ⟨_, _, _, _, _, _, _, (Option.some.inj h).symm⟩

/-- Claim C5 helper: same for tcp_send_rst_out. -/
theorem rst_out_mem_build (cp : Conn) (tos id : Nat) (p : RstPacket)
    (h : tcp_send_rst_out cp true tos id = some p) :
    ∃ src dst seqv saddr daddr tos2 id2,
      p = build_rst src dst seqv saddr daddr tos2 id2 := by
  unfold tcp_send_rst_out at h
  rw [if_neg (by simp)] at h
  split_ifs at h <;>
    exact ⟨_, _, _, _, _, _, _, (Option.some.inj h).symm⟩

/-- Claim C5 (amended): when both packet allocations succeed, the expiry
handler emits exactly zero or exactly two RST packets, and every emitted
packet has rst = 1, ack_seq = 0, doff = 5 and valid IPv4 and TCP
pseudo-header checksums.  (An allocation failure can leave exactly one
packet, see the counterexample.) -/
theorem c5_rst_zero_or_two (sysctl : Bool) (cp : Conn)
    (tosIn idIn tosOut idOut : Nat) :
    ((tcp_conn_expire_handler sysctl cp true true tosIn idIn tosOut
        idOut).length = 0 ∨
     (tcp_conn_expire_handler sysctl cp true true tosIn idIn tosOut
        idOut).length = 2) ∧
    ∀ p ∈ tcp_conn_expire_handler sysctl cp true true tosIn idIn tosOut
        idOut,
      p.th.rst = true ∧ p.th.ack_seq = 0 ∧ p.th.doff = 5 ∧
      ip_fast_csum p.iph = 0 ∧
      csum_tcpudp_magic p.iph.saddr p.iph.daddr 20 IPPROTO_TCP
        (tcpWordSum p.th) = 0 := by
  have hmem : ∀ p ∈ tcp_conn_expire_handler sysctl cp true true tosIn idIn
      tosOut idOut,
      p.th.rst = true ∧ p.th.ack_seq = 0 ∧ p.th.doff = 5 ∧
      ip_fast_csum p.iph = 0 ∧
      csum_tcpudp_magic p.iph.saddr p.iph.daddr 20 IPPROTO_TCP
        (tcpWordSum p.th) = 0 := by
    intro p hp
    unfold tcp_conn_expire_handler at hp
    split_ifs at hp with hg
    · rw [List.mem_append] at hp
      have hb : ∃ src dst seqv saddr daddr tos2 id2,
          p = build_rst src dst seqv saddr daddr tos2 id2 := by
        rcases hp with hp | hp
        · cases hin : tcp_send_rst_in cp true tosIn idIn with
          | none => rw [hin] at hp; simp at hp
          | some q =>
            rw [hin] at hp
            have hp2 : p = q := by simpa using hp
            rw [hp2]
            exact rst_in_mem_build cp tosIn idIn q hin
        · cases hout : tcp_send_rst_out cp true tosOut idOut with
          | none => rw [hout] at hp; simp at hp
          | some q =>
            rw [hout] at hp
            have hp2 : p = q := by simpa using hp
            rw [hp2]
            exact rst_out_mem_build cp tosOut idOut q hout
      obtain ⟨src, dst, seqv, saddr, daddr, tos2, id2, rfl⟩ := hb
      exact build_rst_props src dst seqv saddr daddr tos2 id2
    · simp at hp
  refine ⟨?_, hmem⟩
  unfold tcp_conn_expire_handler
  split_ifs with hg
  · by_cases hc : (cp.state = IP_VS_TCP_S_SYN_SENT ∧ cp.ack_skb ≠ []) ∨
        cp.state = IP_VS_TCP_S_ESTABLISHED
    · right
      have hne1 := not_not_intro hc
      cases hin : tcp_send_rst_in cp true tosIn idIn with
      | none => exact absurd ((rst_in_none_iff cp tosIn idIn).mp hin) hne1
      | some p1 =>
        cases hout : tcp_send_rst_out cp true tosOut idOut with
        | none => exact absurd ((rst_out_none_iff cp tosOut idOut).mp hout) hne1
        | some p2 => simp
    · left
      rw [(rst_in_none_iff cp tosIn idIn).mpr hc,
        (rst_out_none_iff cp tosOut idOut).mpr hc]
      rfl
  · exact Or.inl rfl

/-- An ESTABLISHED FULLNAT flow with recorded reverse-path values, used
by the C5 counterexample and witness. -/
def cpC5 : Conn :=
  { conn0 with state := IP_VS_TCP_S_ESTABLISHED,
               flags := { flags0 with fullnat := true },
               rs_ack_seq := 5000, rs_end_seq := 6000,
               fnat_seq := { init_seq := 1, delta := 100, fdata_seq := 0 } }

/-- Claim C5 counterexample: if the first allocation fails and the second
succeeds on an ESTABLISHED FULLNAT flow, the handler emits exactly one
RST packet, contradicting exactly-zero-or-two. -/
theorem c5_single_rst_on_alloc_failure :
    (tcp_conn_expire_handler true cpC5 false true 0 0 0 0).length = 1 ∧
    ¬((tcp_conn_expire_handler true cpC5 false true 0 0 0 0).length = 0 ∨
      (tcp_conn_expire_handler true cpC5 false true 0 0 0 0).length = 2) := by
  decide

/-- The RST to the client emitted on expiry of cpC5. -/
def pktC5 : RstPacket :=
  build_rst cpC5.dport cpC5.lport cpC5.rs_end_seq cpC5.daddr cpC5.laddr 0 0

/-- Claim C5 witness: the amended theorem applied to cpC5 with both
allocations succeeding: two packets, and the client RST has all the
claimed properties. -/
theorem c5_rst_zero_or_two_witness :
    (tcp_conn_expire_handler true cpC5 true true 0 0 0 0).length = 2 ∧
    (pktC5.th.rst = true ∧ pktC5.th.ack_seq = 0 ∧ pktC5.th.doff = 5 ∧
      ip_fast_csum pktC5.iph = 0 ∧
      csum_tcpudp_magic pktC5.iph.saddr pktC5.iph.daddr 20 IPPROTO_TCP
        (tcpWordSum pktC5.th) = 0) := by
  have h := c5_rst_zero_or_two true cpC5 0 0 0 0
  constructor
  · cases h.1 with
    | inl h0 => exact absurd h0 (by decide)
    | inr h2 => exact h2
  · exact h.2 pktC5 (by decide)

end IpVsTcp
